import Mathlib

/-!
# Verification of the Crossref pagination loop (`src/utilities.py`, `query_all`)

This file shallowly embeds the generator `query_all` from `utilities.py` as a
state machine.  Each iteration of the `while incomplete:` loop is one `step`:
it builds the request parameters from the current state (which can raise a
`NameError` when the `offset` variable was never initialized), consumes one
outcome of the rate-limited `api_query` call from the environment, and
produces the sleep performed, the records yielded, and the successor state
(or a crash, for the unguarded `assert offset == start_index`).

Python-value conventions:
* the `cursor` variable is `Option String` (`none` = Python `None`); Python
  truthiness of a cursor is `pyTruthy` (`None` and `''` are falsy);
* records are opaque, modelled as `Nat`;
* `int(0.75 * rows)` is `3 * rows / 4` in `Nat` (0.75 is exactly `3/4` in
  binary floating point, and `rows` stays far below 2^51, so the float
  product is exact and `int` truncates toward zero, i.e. floors);
* `items[:remaining]` is `pySlice remaining items`, faithful to Python
  slicing also for negative `remaining`;
* a JSON payload carries `result.get('status')` as an `Option String`, and
  `message['next-cursor']` / `message['query']['start-index']` as options
  (`none` for `next-cursor` stands for JSON `null`, i.e. Python `None`;
  `none` for `start-index` stands for the `KeyError` path).
-/

namespace Crossref

/-- Python truthiness of the `cursor` variable: `None` and `''` are falsy. -/
def pyTruthy : Option String → Bool
  | none => false
  | some s => !s.isEmpty

/-- Python `l[:r]` for an `int` bound `r` (negative bounds count from the end). -/
def pySlice (r : Int) (l : List Nat) : List Nat :=
  if 0 ≤ r then l.take r.toNat
  else l.take (l.length - (-r).toNat)

/-- The `message` object of a Crossref JSON payload, as read by `query_all`:
`total-results`, `items`, `next-cursor` (may be JSON `null` = `none`), and
`query.start-index` (`none` when the key is missing, the `KeyError` path). -/
structure Message where
  totalResults : Nat
  items : List Nat
  nextCursor : Option String
  startIndex : Option Nat
  deriving DecidableEq, Repr

/-- A parsed JSON payload: `result.get('status')` and `result['message']`. -/
structure Payload where
  status : Option String
  message : Message
  deriving DecidableEq, Repr

/-- Python `rows = int(0.75 * rows)`: 0.75 is exactly 3/4 in floating point and the
product is exact for the magnitudes involved, so this is `⌊3·rows/4⌋`. -/
def rowsShrink (r : Nat) : Nat := 3 * r / 4

/-- One outcome of the `api_query(component, rows=rows, **params)` call:
either the call raises (network/timeout), or it returns a response with a
status code and a body that parses to `payload`. -/
inductive ApiOutcome where
  | transport
  | http (statusCode : Nat) (payload : Payload)
  deriving DecidableEq, Repr

/-- The query-string parameters of one request: always `rows`, plus exactly
one of `cursor` or `offset` (`params = {'cursor': cursor} if cursor else
{'offset': offset}` together with `rows=rows`). -/
inductive Params where
  | cursorP (c : String) (rows : Nat)
  | offsetP (o : Nat) (rows : Nat)
  deriving DecidableEq, Repr

/-- Uncaught Python exceptions the loop can raise. -/
inductive PyError where
  | nameError
  | assertionError
  deriving DecidableEq, Repr

/-- The local variables of one `query_all` run.  `offset = none` means the
Python variable `offset` was never assigned (reading it raises `NameError`);
`total = none` means `progress_bar is None` (the bar and `total` are created
together on the first `"ok"` page); `emitted` is `progress_bar.n`. -/
structure PagState where
  cursor : Option String
  offset : Option Nat
  successive_errors : Nat
  rows : Nat
  total : Option Nat
  emitted : Nat
  incomplete : Bool
  deriving DecidableEq, Repr

/-- The caller-supplied configuration that the loop keeps reading:
`batch_size` and `max_items`. -/
structure Config where
  batch_size : Nat
  max_items : Option Nat
  deriving DecidableEq, Repr

/-- State at the top of `query_all`, before the loop:
`successive_errors = 0`, `rows = batch_size`, and `offset = 0` exactly when
the `cursor` argument is falsy (`if not cursor: offset = 0`). -/
def initState (batch_size : Nat) (cursor : Option String) : PagState :=
  { cursor := cursor
    offset := if pyTruthy cursor then none else some 0
    successive_errors := 0
    rows := batch_size
    total := none
    emitted := 0
    incomplete := true }

/-- Python `params = {'cursor': cursor} if cursor else {'offset': offset}`, plus
`rows`.  Reading an unassigned `offset` raises `NameError`. -/
def buildParams (s : PagState) : Except PyError Params :=
  if pyTruthy s.cursor then
    .ok (.cursorP (s.cursor.getD "") s.rows)
  else
    match s.offset with
    | some o => .ok (.offsetP o s.rows)
    | none => .error .nameError

/-- The result of one loop iteration: either an uncaught exception escapes
(with the records already yielded before it was raised), or the iteration
ran to its end — recording the request parameters used, the seconds slept
(`0` when no `time.sleep` ran), the records yielded, and the new state. -/
inductive StepOut where
  | crashed (err : PyError) (yielded : List Nat)
  | stepped (params : Params) (sleep : Nat) (yielded : List Nat) (s : PagState)
  deriving DecidableEq, Repr

/-- The `total` in effect while processing an `"ok"` page: the existing one
if the progress bar exists, else the payload's `total-results` clamped to
`max_items` (`if progress_bar is None: total = ...; total = min(total,
max_items)`). -/
def pageTotal (cfg : Config) (s : PagState) (payload : Payload) : Nat :=
  match s.total with
  | some t => t
  | none =>
    match cfg.max_items with
    | some m => min payload.message.totalResults m
    | none => payload.message.totalResults

/-- Python `remaining = total - progress_bar.n`;
`items = result['message']['items'][:remaining]`. -/
def pageItems (cfg : Config) (s : PagState) (payload : Payload) : List Nat :=
  pySlice ((pageTotal cfg s payload : Int) - (s.emitted : Int))
    payload.message.items

/-- The body of the loop from `# Extract JSON payload` onward, reached only
when the call returned status code 200 (and after `successive_errors` and
`rows` were already rolled back).  Mirrors lines 86–121 of `utilities.py`. -/
def processBody (cfg : Config) (s : PagState) (p : Params) (payload : Payload) :
    StepOut :=
  if payload.status ≠ some "ok" then
    -- `continue` with no sleep and no state change
    .stepped p 0 [] s
  else
    let total := pageTotal cfg s payload
    let items := pageItems cfg s payload
    if pyTruthy s.cursor then
      -- `cursor = result['message']['next-cursor']`
      .stepped p 0 items
        { s with
          total := some total
          cursor := payload.message.nextCursor
          emitted := s.emitted + items.length
          incomplete := !items.isEmpty }
    else
      match s.offset with
      | none => .crashed .nameError items
      | some o =>
        match payload.message.startIndex with
        | some si =>
          if o = si then
            .stepped p 0 items
              { s with
                total := some total
                offset := some (o + items.length)
                emitted := s.emitted + items.length
                incomplete := !items.isEmpty }
          else
            -- `assert offset == start_index` fails; AssertionError escapes
            .crashed .assertionError items
        | none =>
          -- KeyError from the missing key is swallowed by `except KeyError`
          .stepped p 0 items
            { s with
              total := some total
              offset := some (o + items.length)
              emitted := s.emitted + items.length
              incomplete := !items.isEmpty }

/-- One iteration of `while incomplete:`: build the request parameters,
consume one API-call outcome, and apply lines 56–121 of `utilities.py`.
Transport errors and non-200 statuses increment `successive_errors`, sleep
`2 ** successive_errors`, and set `rows = int(0.75 * rows)`; a 200 response
first rolls back the emergency state (`successive_errors = 0`,
`rows = batch_size`) and then processes the body. -/
def step (cfg : Config) (s : PagState) (out : ApiOutcome) : StepOut :=
  match buildParams s with
  | .error e => .crashed e []
  | .ok p =>
    match out with
    | .transport =>
      .stepped p (2 ^ (s.successive_errors + 1)) []
        { s with
          successive_errors := s.successive_errors + 1
          rows := rowsShrink s.rows }
    | .http code payload =>
      if code ≠ 200 then
        .stepped p (2 ^ (s.successive_errors + 1)) []
          { s with
            successive_errors := s.successive_errors + 1
            rows := rowsShrink s.rows }
      else
        processBody cfg
          { s with successive_errors := 0, rows := cfg.batch_size } p payload

/-- Run the loop against a list of API-call outcomes, recording every
iteration.  The trace stops early when the loop exits (`incomplete` became
false) or an exception escaped the generator. -/
def runTrace (cfg : Config) : PagState → List ApiOutcome → List StepOut
  | _, [] => []
  | s, out :: rest =>
    if s.incomplete then
      match step cfg s out with
      | .crashed e y => [.crashed e y]
      | .stepped p sl y s' => .stepped p sl y s' :: runTrace cfg s' rest
    else []

/-- The state after running the loop against a list of API-call outcomes
(`none` when an exception escaped). -/
def runState (cfg : Config) : PagState → List ApiOutcome → Option PagState
  | s, [] => some s
  | s, out :: rest =>
    if s.incomplete then
      match step cfg s out with
      | .crashed _ _ => none
      | .stepped _ _ _ s' => runState cfg s' rest
    else some s

/-- Records yielded by one iteration. -/
def StepOut.yieldedOf : StepOut → List Nat
  | .crashed _ y => y
  | .stepped _ _ y _ => y

/-- All records yielded along a trace. -/
def traceYield (tr : List StepOut) : List Nat :=
  (tr.map StepOut.yieldedOf).flatten

/-!
## Helper lemmas about the failure path

An offset-mode run that has only ever seen failures is in `failState b j`
after `j` consecutive failures. -/

/-- Offset-mode state after `j` consecutive transport / non-200 failures
from a fresh `query_all(batch_size=b)` run. -/
def failState (b j : Nat) : PagState :=
  { cursor := none
    offset := some 0
    successive_errors := j
    rows := rowsShrink^[j] b
    total := none
    emitted := 0
    incomplete := true }

theorem initState_eq_failState (b : Nat) : initState b none = failState b 0 := rfl

theorem step_failState_transport (b j : Nat) (mi : Option Nat) :
    step ⟨b, mi⟩ (failState b j) .transport =
      .stepped (.offsetP 0 (rowsShrink^[j] b)) (2 ^ (j + 1)) []
        (failState b (j + 1)) := by
  simp [step, buildParams, failState, pyTruthy, Function.iterate_succ_apply']

theorem pySlice_length_le (r : Int) (l : List Nat) (hr : 0 ≤ r) :
    (pySlice r l).length ≤ r.toNat := by
  simp [pySlice, hr]

theorem pySlice_eq_nil_iff (r : Int) (l : List Nat) (hr : 0 ≤ r) :
    pySlice r l = [] ↔ r = 0 ∨ l = [] := by
  rw [pySlice, if_pos hr, List.take_eq_nil_iff]
  constructor
  · rintro (h | h)
    · left; omega
    · right; exact h
  · rintro (h | h)
    · left; omega
    · right; exact h

theorem rowsShrink_lt (n : Nat) (h : 0 < n) : rowsShrink n < n := by
  unfold rowsShrink
  omega

theorem rowsShrink_iterate_eq_zero (b c : Nat) (h : c ≤ b) :
    rowsShrink^[b] c = 0 := by
  induction b generalizing c with
  | zero =>
    have hc : c = 0 := Nat.le_zero.mp h
    simp [hc]
  | succ b ih =>
    rw [Function.iterate_succ_apply]
    apply ih
    rcases Nat.eq_zero_or_pos c with h0 | h0
    · simp [h0, rowsShrink]
    · have := rowsShrink_lt c h0
      omega

theorem rowsShrink_iterate_self (b : Nat) : rowsShrink^[b] b = 0 :=
  rowsShrink_iterate_eq_zero b b le_rfl

theorem rowsShrink_iterate_stays_zero (b k j : Nat)
    (h : rowsShrink^[k] b = 0) : rowsShrink^[k + j] b = 0 := by
  rw [Nat.add_comm, Function.iterate_add_apply, h]
  exact Function.iterate_fixed rfl _

/-- On any iteration that runs to its end (no crash), the recorded request
parameters are the ones built from the pre-state. -/
theorem step_params_eq (cfg : Config) (s : PagState) (out : ApiOutcome)
    (p : Params) (sl : Nat) (y : List Nat) (s' : PagState)
    (hstep : step cfg s out = .stepped p sl y s') :
    buildParams s = .ok p := by
  unfold step at hstep
  cases hbp : buildParams s with
  | error e => rw [hbp] at hstep; cases hstep
  | ok p0 =>
    rw [hbp] at hstep
    cases out with
    | transport => cases hstep; rfl
    | http code payload =>
      simp only at hstep
      split at hstep
      · cases hstep; rfl
      · unfold processBody at hstep
        split at hstep
        · cases hstep; rfl
        · simp only at hstep
          split at hstep
          · cases hstep; rfl
          · split at hstep
            · cases hstep
            · split at hstep
              · split at hstep
                · cases hstep; rfl
                · cases hstep
              · cases hstep; rfl

/-- A transport error (the `except Exception` branch): count, sleep
`2 ** successive_errors`, shrink `rows`, keep everything else. -/
theorem step_transport (cfg : Config) (s : PagState) (p : Params)
    (hp : buildParams s = .ok p) :
    step cfg s .transport =
      .stepped p (2 ^ (s.successive_errors + 1)) []
        { s with
          successive_errors := s.successive_errors + 1
          rows := rowsShrink s.rows } := by
  simp [step, hp]

/-- A non-200 response: same recovery policy as a transport error. -/
theorem step_http_err (cfg : Config) (s : PagState) (p : Params) (code : Nat)
    (payload : Payload) (hp : buildParams s = .ok p) (hcode : code ≠ 200) :
    step cfg s (.http code payload) =
      .stepped p (2 ^ (s.successive_errors + 1)) []
        { s with
          successive_errors := s.successive_errors + 1
          rows := rowsShrink s.rows } := by
  simp [step, hp, hcode]

/-- A 200 response whose payload status is not `"ok"`: the emergency state
was already rolled back, then the loop `continue`s with no sleep, no yield,
and no other state change. -/
theorem step_http_notOk (cfg : Config) (s : PagState) (p : Params)
    (payload : Payload) (hp : buildParams s = .ok p)
    (hst : payload.status ≠ some "ok") :
    step cfg s (.http 200 payload) =
      .stepped p 0 []
        { s with successive_errors := 0, rows := cfg.batch_size } := by
  simp [step, hp, processBody, hst]

/-- A 200 `"ok"` response in cursor mode. -/
theorem step_ok_cursorMode (cfg : Config) (s : PagState) (payload : Payload)
    (hc : pyTruthy s.cursor = true) (hok : payload.status = some "ok") :
    step cfg s (.http 200 payload) =
      .stepped (.cursorP (s.cursor.getD "") s.rows) 0 (pageItems cfg s payload)
        { s with
          successive_errors := 0
          rows := cfg.batch_size
          total := some (pageTotal cfg s payload)
          cursor := payload.message.nextCursor
          emitted := s.emitted + (pageItems cfg s payload).length
          incomplete := !(pageItems cfg s payload).isEmpty } := by
  simp [step, buildParams, hc, processBody, hok, pageItems, pageTotal]

/-- A 200 `"ok"` response in offset mode, when `start-index` is absent
(`KeyError` swallowed) or agrees with the current offset. -/
theorem step_ok_offsetMode (cfg : Config) (s : PagState) (payload : Payload)
    (o : Nat) (hc : pyTruthy s.cursor = false) (hoff : s.offset = some o)
    (hok : payload.status = some "ok")
    (hsi : payload.message.startIndex = none ∨
      payload.message.startIndex = some o) :
    step cfg s (.http 200 payload) =
      .stepped (.offsetP o s.rows) 0 (pageItems cfg s payload)
        { s with
          successive_errors := 0
          rows := cfg.batch_size
          total := some (pageTotal cfg s payload)
          offset := some (o + (pageItems cfg s payload).length)
          emitted := s.emitted + (pageItems cfg s payload).length
          incomplete := !(pageItems cfg s payload).isEmpty } := by
  cases hsi with
  | inl h => simp [step, buildParams, hc, hoff, processBody, hok, h,
      pageItems, pageTotal]
  | inr h => simp [step, buildParams, hc, hoff, processBody, hok, h,
      pageItems, pageTotal]

/-- A 200 `"ok"` response in offset mode with a mismatched `start-index`:
the records were already yielded, then `assert offset == start_index`
raises and the `AssertionError` escapes the generator. -/
theorem step_ok_offsetMismatch (cfg : Config) (s : PagState)
    (payload : Payload) (o si : Nat) (hc : pyTruthy s.cursor = false)
    (hoff : s.offset = some o) (hok : payload.status = some "ok")
    (hsi : payload.message.startIndex = some si) (hne : o ≠ si) :
    step cfg s (.http 200 payload) =
      .crashed .assertionError (pageItems cfg s payload) := by
  simp [step, buildParams, hc, hoff, processBody, hok, hsi, hne,
    pageItems, pageTotal]

/-- Reading the never-assigned `offset` variable raises `NameError` before
any API call is made. -/
theorem step_nameError (cfg : Config) (s : PagState) (out : ApiOutcome)
    (hc : pyTruthy s.cursor = false) (hoff : s.offset = none) :
    step cfg s out = .crashed .nameError [] := by
  simp [step, buildParams, hc, hoff]

theorem runState_cons_stepped (cfg : Config) (s : PagState) (out : ApiOutcome)
    (rest : List ApiOutcome) (p : Params) (sl : Nat) (y : List Nat)
    (s' : PagState) (h1 : s.incomplete = true)
    (h2 : step cfg s out = .stepped p sl y s') :
    runState cfg s (out :: rest) = runState cfg s' rest := by
  simp [runState, h1, h2]

theorem runTrace_cons_stepped (cfg : Config) (s : PagState) (out : ApiOutcome)
    (rest : List ApiOutcome) (p : Params) (sl : Nat) (y : List Nat)
    (s' : PagState) (h1 : s.incomplete = true)
    (h2 : step cfg s out = .stepped p sl y s') :
    runTrace cfg s (out :: rest) = .stepped p sl y s' :: runTrace cfg s' rest := by
  simp [runTrace, h1, h2]

/-- Exhaustive inversion for an iteration that ran to its end: it was a
counted failure (transport or non-200), a not-`"ok"` 200 payload, an `"ok"`
page in cursor mode, or an `"ok"` page in offset mode with a consistent or
absent `start-index`. -/
theorem step_stepped_inv (cfg : Config) (s : PagState) (out : ApiOutcome)
    (p : Params) (sl : Nat) (y : List Nat) (s' : PagState)
    (hstep : step cfg s out = .stepped p sl y s') :
    ((out = .transport ∨ ∃ code payload, out = .http code payload ∧ code ≠ 200) ∧
      y = [] ∧ sl = 2 ^ (s.successive_errors + 1) ∧
      s' = { s with
             successive_errors := s.successive_errors + 1
             rows := rowsShrink s.rows }) ∨
    (∃ payload, out = .http 200 payload ∧ payload.status ≠ some "ok" ∧
      y = [] ∧ sl = 0 ∧
      s' = { s with successive_errors := 0, rows := cfg.batch_size }) ∨
    (∃ payload, out = .http 200 payload ∧ payload.status = some "ok" ∧
      pyTruthy s.cursor = true ∧ y = pageItems cfg s payload ∧ sl = 0 ∧
      s' = { s with
             successive_errors := 0
             rows := cfg.batch_size
             total := some (pageTotal cfg s payload)
             cursor := payload.message.nextCursor
             emitted := s.emitted + (pageItems cfg s payload).length
             incomplete := !(pageItems cfg s payload).isEmpty }) ∨
    (∃ payload o, out = .http 200 payload ∧ payload.status = some "ok" ∧
      pyTruthy s.cursor = false ∧ s.offset = some o ∧
      y = pageItems cfg s payload ∧ sl = 0 ∧
      s' = { s with
             successive_errors := 0
             rows := cfg.batch_size
             total := some (pageTotal cfg s payload)
             offset := some (o + (pageItems cfg s payload).length)
             emitted := s.emitted + (pageItems cfg s payload).length
             incomplete := !(pageItems cfg s payload).isEmpty }) := by
  have hbp : buildParams s = .ok p := step_params_eq cfg s out p sl y s' hstep
  cases out with
  | transport =>
    rw [step_transport cfg s p hbp] at hstep
    simp only [StepOut.stepped.injEq] at hstep
    obtain ⟨-, h2, h3, h4⟩ := hstep
    exact Or.inl ⟨Or.inl rfl, h3.symm, h2.symm, h4.symm⟩
  | http code payload =>
    by_cases hcode : code = 200
    · subst hcode
      by_cases hok : payload.status = some "ok"
      · by_cases hc : pyTruthy s.cursor = true
        · rw [step_ok_cursorMode cfg s payload hc hok] at hstep
          simp only [StepOut.stepped.injEq] at hstep
          obtain ⟨-, h2, h3, h4⟩ := hstep
          exact Or.inr (Or.inr (Or.inl
            ⟨payload, rfl, hok, hc, h3.symm, h2.symm, h4.symm⟩))
        · have hc' : pyTruthy s.cursor = false := by
            cases h : pyTruthy s.cursor
            · rfl
            · exact absurd h hc
          cases hoff : s.offset with
          | none =>
            rw [step_nameError cfg s _ hc' hoff] at hstep
            cases hstep
          | some o =>
            cases hsi : payload.message.startIndex with
            | none =>
              rw [step_ok_offsetMode cfg s payload o hc' hoff hok
                (Or.inl hsi)] at hstep
              simp only [StepOut.stepped.injEq] at hstep
              obtain ⟨-, h2, h3, h4⟩ := hstep
              exact Or.inr (Or.inr (Or.inr
                ⟨payload, o, rfl, hok, hc', rfl, h3.symm, h2.symm, h4.symm⟩))
            | some si =>
              by_cases hsieq : o = si
              · subst hsieq
                rw [step_ok_offsetMode cfg s payload o hc' hoff hok
                  (Or.inr hsi)] at hstep
                simp only [StepOut.stepped.injEq] at hstep
                obtain ⟨-, h2, h3, h4⟩ := hstep
                exact Or.inr (Or.inr (Or.inr
                  ⟨payload, o, rfl, hok, hc', rfl, h3.symm, h2.symm, h4.symm⟩))
              · rw [step_ok_offsetMismatch cfg s payload o si hc' hoff hok
                  hsi hsieq] at hstep
                cases hstep
      · rw [step_http_notOk cfg s p payload hbp hok] at hstep
        simp only [StepOut.stepped.injEq] at hstep
        obtain ⟨-, h2, h3, h4⟩ := hstep
        exact Or.inr (Or.inl ⟨payload, rfl, hok, h3.symm, h2.symm, h4.symm⟩)
    · rw [step_http_err cfg s p code payload hbp hcode] at hstep
      simp only [StepOut.stepped.injEq] at hstep
      obtain ⟨-, h2, h3, h4⟩ := hstep
      exact Or.inl ⟨Or.inr ⟨code, payload, rfl, hcode⟩, h3.symm, h2.symm, h4.symm⟩

/-- Transport a state invariant along `runState`. -/
theorem runState_inv (cfg : Config) (P : PagState → Prop)
    (hstep : ∀ s out p sl y s',
      P s → step cfg s out = .stepped p sl y s' → P s') :
    ∀ (outs : List ApiOutcome) (s s' : PagState),
      P s → runState cfg s outs = some s' → P s' := by
  intro outs
  induction outs with
  | nil =>
    intro s s' hP h
    simp only [runState] at h
    cases h
    exact hP
  | cons out rest ih =>
    intro s s' hP h
    simp only [runState] at h
    by_cases hi : s.incomplete = true
    · rw [if_pos hi] at h
      cases hst : step cfg s out with
      | crashed e yy => rw [hst] at h; cases h
      | stepped p sl yy s2 =>
        rw [hst] at h
        exact ih s2 s' (hstep s out p sl yy s2 hP hst) h
    · rw [if_neg hi] at h
      cases h
      exact hP

/-- Transport a state invariant to every entry of `runTrace`. -/
theorem runTrace_sound (cfg : Config) (P : PagState → Prop)
    (Q : StepOut → Prop)
    (hcr : ∀ s out e yy, P s → step cfg s out = .crashed e yy →
      Q (.crashed e yy))
    (hst : ∀ s out p sl yy s', P s → step cfg s out = .stepped p sl yy s' →
      Q (.stepped p sl yy s') ∧ P s') :
    ∀ (outs : List ApiOutcome) (s : PagState),
      P s → ∀ e ∈ runTrace cfg s outs, Q e := by
  intro outs
  induction outs with
  | nil =>
    intro s hP e he
    simp [runTrace] at he
  | cons out rest ih =>
    intro s hP e he
    simp only [runTrace] at he
    by_cases hi : s.incomplete = true
    · rw [if_pos hi] at he
      cases h : step cfg s out with
      | crashed err yy =>
        rw [h] at he
        rw [List.mem_singleton] at he
        subst he
        exact hcr s out err yy hP h
      | stepped p sl yy s2 =>
        rw [h] at he
        rw [List.mem_cons] at he
        cases he with
        | inl he =>
          subst he
          exact (hst s out p sl yy s2 hP h).1
        | inr he =>
          exact ih s2 (hst s out p sl yy s2 hP h).2 e he
    · rw [if_neg hi] at he
      simp at he

theorem runState_failState (b j k : Nat) (mi : Option Nat) :
    runState ⟨b, mi⟩ (failState b j) (List.replicate k .transport) =
      some (failState b (j + k)) := by
  induction k generalizing j with
  | zero => simp [runState]
  | succ k ih =>
    rw [List.replicate_succ,
      runState_cons_stepped _ _ _ _ _ _ _ _ rfl (step_failState_transport b j mi),
      ih (j + 1)]
    have h : j + 1 + k = j + (k + 1) := by omega
    rw [h]

theorem runTrace_failState (b j k : Nat) (mi : Option Nat) :
    runTrace ⟨b, mi⟩ (failState b j) (List.replicate k .transport) =
      (List.range k).map (fun i =>
        .stepped (.offsetP 0 (rowsShrink^[j + i] b)) (2 ^ (j + i + 1)) []
          (failState b (j + i + 1))) := by
  induction k generalizing j with
  | zero => simp [runTrace]
  | succ k ih =>
    rw [List.replicate_succ,
      runTrace_cons_stepped _ _ _ _ _ _ _ _ rfl (step_failState_transport b j mi),
      ih (j + 1), List.range_succ_eq_map, List.map_cons, List.map_map]
    congr 1
    apply List.map_congr_left
    intro i _
    have h : j + 1 + i = j + (i + 1) := by omega
    simp [h]

/-- The same request parameters with the `rows` value replaced. -/
def Params.withRows : Params → Nat → Params
  | .cursorP c _, r => .cursorP c r
  | .offsetP o _, r => .offsetP o r

/-- The page-size formula asserted by the spec for the failure streak:
`current_rows = round(batch_size * 0.75^k)`. -/
def specClaimedRows (b k : Nat) : Int := round ((b : ℚ) * (3 / 4) ^ k)

/-!
## C1
-/

/-- C1 (counterexample): run `query_all(batch_size=20)` in offset mode
against one HTTP 500 response, then a 200 response with a not-`"ok"`
payload, then a transport error.  The request that produced the not-ok
payload was sent with `rows=15`, but the state after processing it has
`rows = 20` and `successive_errors = 0` — the not-ok 200 response *did*
mutate (reset) both — and the retried request is sent with `rows=20`, not
the identical `rows=15`.  This refutes "no reset" and "identical request
parameters". -/
theorem c1_counterexample :
    runTrace ⟨20, none⟩ (initState 20 none)
        [.http 500 ⟨some "error", ⟨0, [], none, none⟩⟩,
         .http 200 ⟨some "error", ⟨0, [], none, none⟩⟩,
         .transport] =
      [.stepped (.offsetP 0 20) 2 [] ⟨none, some 0, 1, 15, none, 0, true⟩,
       .stepped (.offsetP 0 15) 0 [] ⟨none, some 0, 0, 20, none, 0, true⟩,
       .stepped (.offsetP 0 20) 2 [] ⟨none, some 0, 1, 15, none, 0, true⟩] ∧
    (15 : Nat) ≠ 20 := by
  decide

/-- C1 (amended): on HTTP 200 with a not-`"ok"` payload the loop performs no
sleep, yields nothing, does not increment `successive_errors`, does not
shrink `current_rows`, and leaves cursor/offset/total/emitted untouched —
but it has already *reset* `successive_errors` to 0 and `current_rows` to
`batch_size`, so the retry repeats the same cursor/offset while requesting
`rows = batch_size` (not necessarily the rows of the failed request). -/
theorem c1_notOk_retry (cfg : Config) (s : PagState) (p : Params)
    (payload : Payload) (hp : buildParams s = .ok p)
    (hst : payload.status ≠ some "ok") :
    step cfg s (.http 200 payload) =
      .stepped p 0 []
        { s with successive_errors := 0, rows := cfg.batch_size } ∧
    buildParams { s with successive_errors := 0, rows := cfg.batch_size } =
      .ok (p.withRows cfg.batch_size) := by
  refine ⟨step_http_notOk cfg s p payload hp hst, ?_⟩
  unfold buildParams at hp ⊢
  by_cases hc : pyTruthy s.cursor = true
  · rw [if_pos hc] at hp
    cases hp
    rw [if_pos hc]
    rfl
  · rw [if_neg hc] at hp
    rw [if_neg hc]
    cases hoff : s.offset with
    | none => rw [hoff] at hp; cases hp
    | some o =>
      rw [hoff] at hp
      cases hp
      rfl

/-- Witness for `c1_notOk_retry` at a concrete input. -/
theorem c1_notOk_retry_witness :
    step ⟨20, none⟩ ⟨none, some 0, 1, 15, none, 0, true⟩
        (.http 200 ⟨some "error", ⟨0, [], none, none⟩⟩) =
      .stepped (.offsetP 0 15) 0 [] ⟨none, some 0, 0, 20, none, 0, true⟩ ∧
    buildParams ⟨none, some 0, 0, 20, none, 0, true⟩ =
      .ok (.offsetP 0 20) :=
  c1_notOk_retry ⟨20, none⟩ ⟨none, some 0, 1, 15, none, 0, true⟩
    (.offsetP 0 15) ⟨some "error", ⟨0, [], none, none⟩⟩ rfl (by decide)

/-!
## C2
-/

/-- C2 (counterexample): after 5 consecutive transport failures with
`batch_size = 20` the code requests `rows = 4` (iterated
`int(0.75 * rows)`), while the spec's formula `round(20 * 0.75^5)` gives 5. -/
theorem c2_counterexample :
    (runState ⟨20, none⟩ (initState 20 none)
        (List.replicate 5 .transport)).map PagState.rows = some 4 ∧
    specClaimedRows 20 5 = 5 ∧ (4 : Int) ≠ 5 := by
  refine ⟨by decide, ?_, by decide⟩
  norm_num [specClaimedRows, round_eq]

/-- A counted failure of the `api_query` call: either the call itself
raised (`except Exception`), or it returned a non-200 status code. -/
def isFailure : ApiOutcome → Bool
  | .transport => true
  | .http code _ => code ≠ 200

theorem withRows_withRows (p : Params) (m r : Nat) :
    (p.withRows m).withRows r = p.withRows r := by
  cases p <;> rfl

theorem buildParams_rows (s : PagState) (p : Params)
    (hp : buildParams s = .ok p) : p.withRows s.rows = p := by
  unfold buildParams at hp
  by_cases hc : pyTruthy s.cursor = true
  · rw [if_pos hc] at hp
    cases hp
    rfl
  · rw [if_neg hc] at hp
    cases hoff : s.offset with
    | none => rw [hoff] at hp; cases hp
    | some o =>
      rw [hoff] at hp
      cases hp
      rfl

/-- Changing only `successive_errors` and `rows` keeps the request shape:
the same cursor/offset is sent, with the new `rows` value. -/
theorem buildParams_withRows (s : PagState) (p : Params) (n m : Nat)
    (hp : buildParams s = .ok p) :
    buildParams { s with successive_errors := n, rows := m } =
      .ok (p.withRows m) := by
  unfold buildParams at hp ⊢
  by_cases hc : pyTruthy s.cursor = true
  · rw [if_pos hc] at hp
    cases hp
    rw [if_pos hc]
    rfl
  · rw [if_neg hc] at hp
    rw [if_neg hc]
    cases hoff : s.offset with
    | none => rw [hoff] at hp; cases hp
    | some o =>
      rw [hoff] at hp
      cases hp
      rfl

/-- Any counted failure — a transport error or a non-200 response — follows
the same recovery policy: increment, sleep `2 ** successive_errors`, shrink
`rows`, touch nothing else. -/
theorem step_failure (cfg : Config) (s : PagState) (p : Params)
    (out : ApiOutcome) (hp : buildParams s = .ok p)
    (hf : isFailure out = true) :
    step cfg s out =
      .stepped p (2 ^ (s.successive_errors + 1)) []
        { s with
          successive_errors := s.successive_errors + 1
          rows := rowsShrink s.rows } := by
  cases out with
  | transport => exact step_transport cfg s p hp
  | http code payload =>
    have hcode : code ≠ 200 := by simpa [isFailure] using hf
    exact step_http_err cfg s p code payload hp hcode

/-- State after a streak of counted failures (transport or non-200, in any
mix), from any live state of either pagination mode. -/
theorem runState_failures (cfg : Config) :
    ∀ (outs : List ApiOutcome) (s : PagState) (p : Params),
      s.incomplete = true → buildParams s = .ok p →
      (∀ out ∈ outs, isFailure out = true) →
      runState cfg s outs = some
        { s with
          successive_errors := s.successive_errors + outs.length
          rows := rowsShrink^[outs.length] s.rows } := by
  intro outs
  induction outs with
  | nil =>
    intro s p hs hp hf
    simp [runState]
  | cons out rest ih =>
    intro s p hs hp hf
    have hfo : isFailure out = true := hf out (List.mem_cons_self out rest)
    rw [runState_cons_stepped cfg s out rest p _ _ _ hs
      (step_failure cfg s p out hp hfo)]
    rw [ih { s with
             successive_errors := s.successive_errors + 1
             rows := rowsShrink s.rows } (p.withRows (rowsShrink s.rows)) hs
      (buildParams_withRows s p (s.successive_errors + 1) (rowsShrink s.rows)
        hp)
      (fun o ho => hf o (List.mem_cons_of_mem out ho))]
    have h1 : s.successive_errors + 1 + rest.length =
        s.successive_errors + (out :: rest).length := by
      simp
      omega
    have h2 : rowsShrink^[rest.length] (rowsShrink s.rows) =
        rowsShrink^[(out :: rest).length] s.rows := by
      rw [List.length_cons]
      exact (Function.iterate_succ_apply rowsShrink rest.length s.rows).symm
    rw [h1, h2]

/-- Full trace of a streak of counted failures: the `i`-th iteration
(0-indexed) sends the unchanged cursor/offset with
`rows = rowsShrink^[i]` of the starting rows, sleeps
`2^(successive_errors + i + 1)`, and yields nothing. -/
theorem runTrace_failures (cfg : Config) :
    ∀ (outs : List ApiOutcome) (s : PagState) (p : Params),
      s.incomplete = true → buildParams s = .ok p →
      (∀ out ∈ outs, isFailure out = true) →
      runTrace cfg s outs = (List.range outs.length).map (fun i =>
        .stepped (p.withRows (rowsShrink^[i] s.rows))
          (2 ^ (s.successive_errors + i + 1)) []
          { s with
            successive_errors := s.successive_errors + i + 1
            rows := rowsShrink^[i + 1] s.rows }) := by
  intro outs
  induction outs with
  | nil =>
    intro s p hs hp hf
    simp [runTrace]
  | cons out rest ih =>
    intro s p hs hp hf
    have hfo : isFailure out = true := hf out (List.mem_cons_self out rest)
    rw [runTrace_cons_stepped cfg s out rest p _ _ _ hs
      (step_failure cfg s p out hp hfo)]
    rw [ih { s with
             successive_errors := s.successive_errors + 1
             rows := rowsShrink s.rows } (p.withRows (rowsShrink s.rows)) hs
      (buildParams_withRows s p (s.successive_errors + 1) (rowsShrink s.rows)
        hp)
      (fun o ho => hf o (List.mem_cons_of_mem out ho))]
    rw [List.length_cons, List.range_succ_eq_map, List.map_cons, List.map_map]
    congr 1
    · have h0 : rowsShrink^[0] s.rows = s.rows := rfl
      rw [h0, buildParams_rows s p hp]
      norm_num
    · apply List.map_congr_left
      intro i _
      simp only [Function.comp_apply, withRows_withRows]
      have h1 : rowsShrink^[i] (rowsShrink s.rows) =
          rowsShrink^[i + 1] s.rows :=
        (Function.iterate_succ_apply rowsShrink i s.rows).symm
      have h2 : rowsShrink^[i + 1] (rowsShrink s.rows) =
          rowsShrink^[i + 1 + 1] s.rows :=
        (Function.iterate_succ_apply rowsShrink (i + 1) s.rows).symm
      have h3 : s.successive_errors + 1 + i = s.successive_errors + (i + 1) :=
        by omega
      rw [h1, h2, h3]

/-- C2 (amended): from any live state with `successive_errors = 0` and
`rows = batch_size` (the start of a run, or the state right after any
success), after `k ≥ 1` consecutive counted failures — transport errors or
non-200 responses, in any mix, in either pagination mode — `current_rows`
equals the `k`-fold iterate of `r ↦ int(0.75·r)` on `batch_size` (not
`round(batch_size · 0.75^k)`), and the iteration of the `k`-th failure
sends `rows = rowsShrink^[k-1] batch_size` and sleeps `2^k` time units. -/
theorem c2_backoff_shrink (cfg : Config) (s : PagState) (p : Params)
    (outs : List ApiOutcome) (k : Nat) (hs : s.incomplete = true)
    (hse : s.successive_errors = 0) (hrows : s.rows = cfg.batch_size)
    (hp : buildParams s = .ok p) (hlen : outs.length = k) (hk : 1 ≤ k)
    (hf : ∀ out ∈ outs, isFailure out = true) :
    (runState cfg s outs).map PagState.rows =
      some (rowsShrink^[k] cfg.batch_size) ∧
    (runTrace cfg s outs).getLast? =
      some (.stepped (p.withRows (rowsShrink^[k - 1] cfg.batch_size)) (2 ^ k)
        [] { s with
             successive_errors := k
             rows := rowsShrink^[k] cfg.batch_size }) := by
  subst hlen
  constructor
  · rw [runState_failures cfg outs s p hs hp hf]
    rw [hrows]
    simp
  · rw [runTrace_failures cfg outs s p hs hp hf]
    obtain ⟨m, hm⟩ : ∃ m, outs.length = m + 1 := ⟨outs.length - 1, by omega⟩
    rw [hm, List.range_succ, List.map_append, List.map_cons, List.map_nil,
      List.getLast?_concat, hse, hrows]
    norm_num

/-- Witness for `c2_backoff_shrink` on a mixed streak — one transport error,
one HTTP 500, one HTTP 404 — from a fresh offset-mode run with
`batch_size = 20`. -/
theorem c2_backoff_shrink_witness :
    (runState ⟨20, none⟩ (initState 20 none)
        [.transport, .http 500 ⟨some "error", ⟨0, [], none, none⟩⟩,
         .http 404 ⟨some "error", ⟨0, [], none, none⟩⟩]).map PagState.rows =
      some (rowsShrink^[3] 20) ∧
    (runTrace ⟨20, none⟩ (initState 20 none)
        [.transport, .http 500 ⟨some "error", ⟨0, [], none, none⟩⟩,
         .http 404 ⟨some "error", ⟨0, [], none, none⟩⟩]).getLast? =
      some (.stepped ((Params.offsetP 0 20).withRows (rowsShrink^[3 - 1] 20))
        (2 ^ 3) [] { initState 20 none with
                     successive_errors := 3
                     rows := rowsShrink^[3] 20 }) :=
  c2_backoff_shrink ⟨20, none⟩ (initState 20 none) (.offsetP 0 20)
    [.transport, .http 500 ⟨some "error", ⟨0, [], none, none⟩⟩,
     .http 404 ⟨some "error", ⟨0, [], none, none⟩⟩] 3 rfl rfl rfl rfl rfl
    (by norm_num) (by decide)

/-!
## C8
-/

/-- C8: any iteration that processes a 200 `"ok"` page and runs to its end
leaves `successive_errors = 0` and `current_rows = batch_size`, whatever the
prior failure streak; concretely, after 9 consecutive failures (rows shrunk
20 → 0) one `"ok"` page restores `successive_errors = 0`, `rows = 20`. -/
theorem c8_success_resets :
    (∀ (cfg : Config) (s : PagState) (payload : Payload) (p : Params)
        (sl : Nat) (y : List Nat) (s' : PagState),
      payload.status = some "ok" →
      step cfg s (.http 200 payload) = .stepped p sl y s' →
      s'.successive_errors = 0 ∧ s'.rows = cfg.batch_size) ∧
    (runState ⟨20, none⟩ (initState 20 none)
        (List.replicate 9 .transport ++
          [.http 200 ⟨some "ok", ⟨100, [], none, none⟩⟩])).map
      (fun s => (s.successive_errors, s.rows)) = some (0, 20) := by
  constructor
  · intro cfg s payload p sl y s' hok hstep
    rcases step_stepped_inv cfg s _ p sl y s' hstep with
      ⟨hout, -, -, -⟩ | ⟨pl2, hout, hst, -, -, -⟩ |
      ⟨pl2, hout, -, -, -, -, hs'⟩ | ⟨pl2, o, hout, -, -, -, -, -, hs'⟩
    · rcases hout with h | ⟨code, pl2, h, hcode⟩
      · cases h
      · cases h; exact absurd rfl hcode
    · cases hout; exact absurd hok hst
    · subst hs'; exact ⟨rfl, rfl⟩
    · subst hs'; exact ⟨rfl, rfl⟩
  · decide

/-- Witness for the universally quantified part of `c8_success_resets`. -/
theorem c8_success_resets_witness :
    (⟨none, some 0, 0, 20, some 100, 0, false⟩ : PagState).successive_errors
        = 0 ∧
    (⟨none, some 0, 0, 20, some 100, 0, false⟩ : PagState).rows = 20 :=
  c8_success_resets.1 ⟨20, none⟩ ⟨none, some 0, 3, 8, none, 0, true⟩
    ⟨some "ok", ⟨100, [], none, none⟩⟩ (.offsetP 0 8) 0 []
    ⟨none, some 0, 0, 20, some 100, 0, false⟩ rfl (by decide)

/-!
## C10
-/

/-- C10: `int(0.75·rows)` iterated from any positive `batch_size` reaches 0
after finitely many consecutive failures and stays 0 (for `batch_size = 20`,
exactly after the 9th failure, the 8th leaving `rows = 1`); and the loop has
no retry ceiling: after any `m ≥ 9` consecutive failures the run is still
live (`incomplete`), the next retry requests `rows = 0`, and the next
failure sleeps `2^(m+1)` — ever-doubling, indefinitely. -/
theorem c10_rows_reach_zero :
    (∀ b : Nat, 0 < b → ∃ k : Nat, ∀ j : Nat, rowsShrink^[k + j] b = 0) ∧
    (rowsShrink^[9] 20 = 0 ∧ rowsShrink^[8] 20 = 1) ∧
    (∀ m : Nat, 9 ≤ m →
      runState ⟨20, none⟩ (initState 20 none)
          (List.replicate m .transport) = some (failState 20 m) ∧
      (failState 20 m).rows = 0 ∧ (failState 20 m).incomplete = true ∧
      step ⟨20, none⟩ (failState 20 m) .transport =
        .stepped (.offsetP 0 0) (2 ^ (m + 1)) [] (failState 20 (m + 1)) ∧
      (failState 20 (m + 1)).rows = 0) := by
  have hz : ∀ m, 9 ≤ m → rowsShrink^[m] 20 = 0 := by
    intro m hm
    have h9 : rowsShrink^[9] 20 = 0 := by decide
    have := rowsShrink_iterate_stays_zero 20 9 (m - 9) h9
    rwa [show 9 + (m - 9) = m by omega] at this
  refine ⟨?_, ⟨by decide, by decide⟩, ?_⟩
  · intro b hb
    exact ⟨b, fun j =>
      rowsShrink_iterate_stays_zero b b j (rowsShrink_iterate_self b)⟩
  · intro m hm
    refine ⟨?_, ?_, rfl, ?_, ?_⟩
    · rw [initState_eq_failState, runState_failState]
      norm_num
    · simp [failState, hz m hm]
    · have h := step_failState_transport 20 m none
      rwa [hz m hm] at h
    · simp [failState, hz (m + 1) (by omega)]

/-- Witness for `c10_rows_reach_zero` at `b = 20`, `m = 9`. -/
theorem c10_rows_reach_zero_witness :
    (∃ k : Nat, ∀ j : Nat, rowsShrink^[k + j] 20 = 0) ∧
    runState ⟨20, none⟩ (initState 20 none)
        (List.replicate 9 .transport) = some (failState 20 9) ∧
    (failState 20 9).rows = 0 ∧
    step ⟨20, none⟩ (failState 20 9) .transport =
      .stepped (.offsetP 0 0) (2 ^ 10) [] (failState 20 10) :=
  ⟨c10_rows_reach_zero.1 20 (by norm_num),
    (c10_rows_reach_zero.2.2 9 le_rfl).1,
    (c10_rows_reach_zero.2.2 9 le_rfl).2.1,
    (c10_rows_reach_zero.2.2 9 le_rfl).2.2.2.1⟩

/-!
## C3
-/

/-- The progress invariant: before the progress bar exists nothing has been
emitted, and afterwards `emitted` never exceeds `total`. -/
def ProgressInv (s : PagState) : Prop :=
  (s.total = none → s.emitted = 0) ∧ ∀ t, s.total = some t → s.emitted ≤ t

theorem progressInv_init (b : Nat) (c0 : Option String) :
    ProgressInv (initState b c0) :=
  ⟨fun _ => rfl, fun t ht => by simp [initState] at ht⟩

theorem pageTotal_emitted_le (cfg : Config) (s : PagState) (payload : Payload)
    (hinv : ProgressInv s) : s.emitted ≤ pageTotal cfg s payload := by
  cases ht : s.total with
  | none => rw [hinv.1 ht]; exact Nat.zero_le _
  | some t =>
    have h := hinv.2 t ht
    simpa [pageTotal, ht] using h

theorem pageItems_length_le (cfg : Config) (s : PagState) (payload : Payload)
    (h : s.emitted ≤ pageTotal cfg s payload) :
    (pageItems cfg s payload).length ≤ pageTotal cfg s payload - s.emitted := by
  have h2 := pySlice_length_le
    ((pageTotal cfg s payload : Int) - (s.emitted : Int))
    payload.message.items (by omega)
  unfold pageItems
  omega

theorem pageItems_eq_nil_iff (cfg : Config) (s : PagState) (payload : Payload)
    (h : s.emitted ≤ pageTotal cfg s payload) :
    pageItems cfg s payload = [] ↔
      s.emitted = pageTotal cfg s payload ∨ payload.message.items = [] := by
  unfold pageItems
  rw [pySlice_eq_nil_iff _ _ (by omega)]
  constructor
  · rintro (h1 | h1)
    · left; omega
    · right; exact h1
  · rintro (h1 | h1)
    · left; omega
    · right; exact h1

theorem progressInv_step (cfg : Config) (s : PagState) (out : ApiOutcome)
    (p : Params) (sl : Nat) (y : List Nat) (s' : PagState)
    (hP : ProgressInv s) (hstep : step cfg s out = .stepped p sl y s') :
    ProgressInv s' := by
  rcases step_stepped_inv cfg s out p sl y s' hstep with
    ⟨-, -, -, hs'⟩ | ⟨pl2, -, -, -, -, hs'⟩ | ⟨pl2, -, -, -, -, -, hs'⟩ |
    ⟨pl2, o, -, -, -, -, -, -, hs'⟩
  · subst hs'; exact hP
  · subst hs'; exact hP
  · subst hs'
    refine ⟨fun h => by simp at h, fun t ht => ?_⟩
    have htt : pageTotal cfg s pl2 = t := by
      simpa using ht
    subst htt
    have h1 := pageTotal_emitted_le cfg s pl2 hP
    have h2 := pageItems_length_le cfg s pl2 h1
    simp only []
    omega
  · subst hs'
    refine ⟨fun h => by simp at h, fun t ht => ?_⟩
    have htt : pageTotal cfg s pl2 = t := by
      simpa using ht
    subst htt
    have h1 := pageTotal_emitted_le cfg s pl2 hP
    have h2 := pageItems_length_le cfg s pl2 h1
    simp only []
    omega

/-- C3: (i) in every reachable state of every run, `emitted` never exceeds
`total`; (ii) a successful `"ok"` page advances `emitted` by exactly the
items taken, takes at most `remaining = total - emitted` of the upstream
items, continues iff it strictly increased `emitted`, and ends the run
cleanly exactly when `emitted` reached `total` or the upstream item list is
empty; (iii) failed iterations never terminate the loop. -/
theorem c3_progress :
    (∀ (cfg : Config) (b : Nat) (c0 : Option String)
        (outs : List ApiOutcome) (s' : PagState) (t : Nat),
      runState cfg (initState b c0) outs = some s' →
      s'.total = some t → s'.emitted ≤ t) ∧
    (∀ (cfg : Config) (s : PagState) (payload : Payload) (p : Params)
        (sl : Nat) (y : List Nat) (s' : PagState),
      ProgressInv s → payload.status = some "ok" →
      step cfg s (.http 200 payload) = .stepped p sl y s' →
      s'.total = some (pageTotal cfg s payload) ∧
      s'.emitted = s.emitted + y.length ∧
      y.length ≤ pageTotal cfg s payload - s.emitted ∧
      (s'.incomplete = true ↔ s.emitted < s'.emitted) ∧
      (s'.incomplete = false ↔
        s.emitted = pageTotal cfg s payload ∨
          payload.message.items = [])) ∧
    (∀ (cfg : Config) (s : PagState) (out : ApiOutcome) (p : Params)
        (sl : Nat) (y : List Nat) (s' : PagState),
      (out = .transport ∨ ∃ code pl, out = .http code pl ∧ code ≠ 200) →
      step cfg s out = .stepped p sl y s' →
      s'.incomplete = s.incomplete) := by
  refine ⟨?_, ?_, ?_⟩
  · intro cfg b c0 outs s' t hrun ht
    exact (runState_inv cfg ProgressInv (progressInv_step cfg) outs _ s'
      (progressInv_init b c0) hrun).2 t ht
  · intro cfg s payload p sl y s' hP hok hstep
    have hle := pageTotal_emitted_le cfg s payload hP
    have hlen := pageItems_length_le cfg s payload hle
    have hnil := pageItems_eq_nil_iff cfg s payload hle
    rcases step_stepped_inv cfg s _ p sl y s' hstep with
      ⟨hout, -, -, -⟩ | ⟨pl2, hout, hst, -, -, -⟩ |
      ⟨pl2, hout, -, -, hy, -, hs'⟩ | ⟨pl2, o, hout, -, -, -, hy, -, hs'⟩
    · rcases hout with h | ⟨code, pl2, h, hcode⟩
      · cases h
      · cases h; exact absurd rfl hcode
    · cases hout; exact absurd hok hst
    · cases hout
      subst hs'
      subst hy
      refine ⟨rfl, rfl, hlen, ?_, ?_⟩
      · by_cases hy2 : pageItems cfg s payload = []
        · simp [hy2]
        · have hpos : 0 < (pageItems cfg s payload).length :=
            List.length_pos.mpr hy2
          have hpe : (pageItems cfg s payload).isEmpty = false := by
            cases hpe2 : (pageItems cfg s payload).isEmpty
            · rfl
            · exact absurd (List.isEmpty_iff.mp hpe2) hy2
          simp [hpe]
          omega
      · by_cases hy2 : pageItems cfg s payload = []
        · simp [hy2]
          exact hnil.mp hy2
        · have hpe : (pageItems cfg s payload).isEmpty = false := by
            cases hpe2 : (pageItems cfg s payload).isEmpty
            · rfl
            · exact absurd (List.isEmpty_iff.mp hpe2) hy2
          simp [hpe]
          constructor
          · intro hcon
            exact hy2 (hnil.mpr (Or.inl hcon))
          · intro hcon
            exact hy2 (hnil.mpr (Or.inr hcon))
    · cases hout
      subst hs'
      subst hy
      refine ⟨rfl, rfl, hlen, ?_, ?_⟩
      · by_cases hy2 : pageItems cfg s payload = []
        · simp [hy2]
        · have hpos : 0 < (pageItems cfg s payload).length :=
            List.length_pos.mpr hy2
          have hpe : (pageItems cfg s payload).isEmpty = false := by
            cases hpe2 : (pageItems cfg s payload).isEmpty
            · rfl
            · exact absurd (List.isEmpty_iff.mp hpe2) hy2
          simp [hpe]
          omega
      · by_cases hy2 : pageItems cfg s payload = []
        · simp [hy2]
          exact hnil.mp hy2
        · have hpe : (pageItems cfg s payload).isEmpty = false := by
            cases hpe2 : (pageItems cfg s payload).isEmpty
            · rfl
            · exact absurd (List.isEmpty_iff.mp hpe2) hy2
          simp [hpe]
          constructor
          · intro hcon
            exact hy2 (hnil.mpr (Or.inl hcon))
          · intro hcon
            exact hy2 (hnil.mpr (Or.inr hcon))
  · intro cfg s out p sl y s' hout hstep
    rcases step_stepped_inv cfg s out p sl y s' hstep with
      ⟨-, -, -, hs'⟩ | ⟨pl2, hout2, -, -, -, -⟩ |
      ⟨pl2, hout2, -, -, -, -, -⟩ | ⟨pl2, o, hout2, -, -, -, -, -, -⟩
    · subst hs'; rfl
    · subst hout2
      rcases hout with h | ⟨code, pl3, h, hcode⟩
      · cases h
      · cases h; exact absurd rfl hcode
    · subst hout2
      rcases hout with h | ⟨code, pl3, h, hcode⟩
      · cases h
      · cases h; exact absurd rfl hcode
    · subst hout2
      rcases hout with h | ⟨code, pl3, h, hcode⟩
      · cases h
      · cases h; exact absurd rfl hcode

/-- Witness for the hypotheses of `c3_progress`: part (i) on a one-page run,
part (ii) on a concrete `"ok"` page, part (iii) on a concrete failure. -/
theorem c3_progress_witness :
    ((⟨none, some 2, 0, 20, some 2, 2, true⟩ : PagState).emitted ≤ 2) ∧
    ((⟨none, some 0, 0, 20, some 10, 3, true⟩ : PagState).incomplete = true ↔
        0 < (⟨none, some 0, 0, 20, some 10, 3, true⟩ : PagState).emitted) ∧
    ((⟨none, some 0, 1, 15, none, 0, true⟩ : PagState).incomplete =
      (initState 20 none).incomplete) := by
  refine ⟨?_, ?_, ?_⟩
  · exact c3_progress.1 ⟨20, none⟩ 20 none
      [.http 200 ⟨some "ok", ⟨2, [7, 8], none, none⟩⟩]
      ⟨none, some 2, 0, 20, some 2, 2, true⟩ 2 (by decide) rfl
  · have h := (c3_progress.2.1 ⟨20, some 10⟩ (initState 20 none)
      ⟨some "ok", ⟨10, [4, 5, 6], none, none⟩⟩ (.offsetP 0 20) 0 [4, 5, 6]
      ⟨none, some 3, 0, 20, some 10, 3, true⟩
      (progressInv_init 20 none) rfl (by decide)).2.2.2.1
    exact h
  · exact c3_progress.2.2 ⟨20, none⟩ (initState 20 none) (.http 500
      ⟨some "error", ⟨0, [], none, none⟩⟩) (.offsetP 0 20) 2 []
      ⟨none, some 0, 1, 15, none, 0, true⟩
      (Or.inr ⟨500, _, rfl, by norm_num⟩) (by decide)

/-!
## C4
-/

/-- C4: `total` is initialized lazily from the first `"ok"` payload's
`total-results`, clamped to `min(total-results, max_items)` when `max_items`
is given, and once set it is never changed by any later iteration; with
`max_items = 50` against `total-results = 1000` the run yields exactly 50
records and then stops cleanly. -/
theorem c4_total_once :
    (∀ (cfg : Config) (s : PagState) (payload : Payload) (p : Params)
        (sl : Nat) (y : List Nat) (s' : PagState),
      s.total = none → payload.status = some "ok" →
      step cfg s (.http 200 payload) = .stepped p sl y s' →
      s'.total = some (pageTotal cfg s payload) ∧
      (cfg.max_items = none →
        pageTotal cfg s payload = payload.message.totalResults) ∧
      (∀ m, cfg.max_items = some m →
        pageTotal cfg s payload = min payload.message.totalResults m)) ∧
    (∀ (cfg : Config) (s : PagState) (out : ApiOutcome) (p : Params)
        (sl : Nat) (y : List Nat) (s' : PagState) (t : Nat),
      s.total = some t →
      step cfg s out = .stepped p sl y s' → s'.total = some t) ∧
    ((traceYield (runTrace ⟨20, some 50⟩ (initState 20 none)
        (List.replicate 4
          (.http 200 ⟨some "ok", ⟨1000, List.range 20, none, none⟩⟩)))).length
      = 50 ∧
    (runState ⟨20, some 50⟩ (initState 20 none)
        (List.replicate 4
          (.http 200 ⟨some "ok", ⟨1000, List.range 20, none, none⟩⟩))).map
      PagState.incomplete = some false) := by
  refine ⟨?_, ?_, by decide, by decide⟩
  · intro cfg s payload p sl y s' htot hok hstep
    rcases step_stepped_inv cfg s _ p sl y s' hstep with
      ⟨hout, -, -, -⟩ | ⟨pl2, hout, hst, -, -, -⟩ |
      ⟨pl2, hout, -, -, -, -, hs'⟩ | ⟨pl2, o, hout, -, -, -, -, -, hs'⟩
    · rcases hout with h | ⟨code, pl2, h, hcode⟩
      · cases h
      · cases h; exact absurd rfl hcode
    · cases hout; exact absurd hok hst
    · cases hout
      subst hs'
      refine ⟨rfl, fun hmi => ?_, fun m hmi => ?_⟩
      · simp [pageTotal, htot, hmi]
      · simp [pageTotal, htot, hmi]
    · cases hout
      subst hs'
      refine ⟨rfl, fun hmi => ?_, fun m hmi => ?_⟩
      · simp [pageTotal, htot, hmi]
      · simp [pageTotal, htot, hmi]
  · intro cfg s out p sl y s' t ht hstep
    rcases step_stepped_inv cfg s out p sl y s' hstep with
      ⟨-, -, -, hs'⟩ | ⟨pl2, -, -, -, -, hs'⟩ |
      ⟨pl2, -, -, -, -, -, hs'⟩ | ⟨pl2, o, -, -, -, -, -, -, hs'⟩
    · subst hs'; exact ht
    · subst hs'; exact ht
    · subst hs'; simp [pageTotal, ht]
    · subst hs'; simp [pageTotal, ht]

/-- Witness for the hypotheses of `c4_total_once`. -/
theorem c4_total_once_witness :
    ((⟨none, some 3, 0, 20, some 5, 3, true⟩ : PagState).total =
        some (pageTotal ⟨20, some 5⟩ (initState 20 none)
          ⟨some "ok", ⟨1000, [4, 5, 6], none, none⟩⟩) ∧
      (∀ m, (⟨20, some 5⟩ : Config).max_items = some m →
        pageTotal ⟨20, some 5⟩ (initState 20 none)
          ⟨some "ok", ⟨1000, [4, 5, 6], none, none⟩⟩ = min 1000 m)) ∧
    ((⟨none, some 4, 0, 20, some 5, 4, true⟩ : PagState).total = some 5) := by
  constructor
  · have h := c4_total_once.1 ⟨20, some 5⟩ (initState 20 none)
      ⟨some "ok", ⟨1000, [4, 5, 6], none, none⟩⟩ (.offsetP 0 20) 0 [4, 5, 6]
      ⟨none, some 3, 0, 20, some 5, 3, true⟩ rfl rfl (by decide)
    exact ⟨h.1, h.2.2⟩
  · exact c4_total_once.2.1 ⟨20, some 5⟩ ⟨none, some 3, 0, 20, some 5, 3, true⟩
      (.http 200 ⟨some "ok", ⟨1000, [7], none, none⟩⟩) (.offsetP 3 20) 0 [7]
      ⟨none, some 4, 0, 20, some 5, 4, true⟩ 5 rfl (by decide)

/-!
## C5
-/

/-- C5: in offset mode, a successful `"ok"` page advances the offset by
exactly the number of items taken; a payload `start-index` that matches the
pre-advance offset (or a missing `start-index` key) is accepted, while a
mismatched `start-index` makes the unguarded assertion fail, aborting the
run with an uncaught `AssertionError`. -/
theorem c5_offset_consistency (cfg : Config) (s : PagState)
    (payload : Payload) (o : Nat) (hc : pyTruthy s.cursor = false)
    (hoff : s.offset = some o) (hok : payload.status = some "ok") :
    ((payload.message.startIndex = none ∨
        payload.message.startIndex = some o) →
      step cfg s (.http 200 payload) =
        .stepped (.offsetP o s.rows) 0 (pageItems cfg s payload)
          { s with
            successive_errors := 0
            rows := cfg.batch_size
            total := some (pageTotal cfg s payload)
            offset := some (o + (pageItems cfg s payload).length)
            emitted := s.emitted + (pageItems cfg s payload).length
            incomplete := !(pageItems cfg s payload).isEmpty }) ∧
    (∀ si, payload.message.startIndex = some si → si ≠ o →
      step cfg s (.http 200 payload) =
        .crashed .assertionError (pageItems cfg s payload)) := by
  constructor
  · intro hsi
    exact step_ok_offsetMode cfg s payload o hc hoff hok hsi
  · intro si hsi hne
    exact step_ok_offsetMismatch cfg s payload o si hc hoff hok hsi
      (fun h => hne h.symm)

/-- Witness for `c5_offset_consistency`: a matching `start-index` advances
the offset by the two items taken; a mismatched one aborts. -/
theorem c5_offset_consistency_witness :
    (step ⟨20, none⟩ ⟨none, some 0, 0, 20, none, 0, true⟩
        (.http 200 ⟨some "ok", ⟨2, [7, 8], none, some 0⟩⟩) =
      .stepped (.offsetP 0 20) 0 [7, 8]
        ⟨none, some 2, 0, 20, some 2, 2, true⟩) ∧
    (step ⟨20, none⟩ ⟨none, some 0, 0, 20, none, 0, true⟩
        (.http 200 ⟨some "ok", ⟨2, [7, 8], none, some 5⟩⟩) =
      .crashed .assertionError [7, 8]) := by
  constructor
  · have h := (c5_offset_consistency ⟨20, none⟩
      ⟨none, some 0, 0, 20, none, 0, true⟩
      ⟨some "ok", ⟨2, [7, 8], none, some 0⟩⟩ 0 rfl rfl rfl).1 (Or.inr rfl)
    exact h
  · have h := (c5_offset_consistency ⟨20, none⟩
      ⟨none, some 0, 0, 20, none, 0, true⟩
      ⟨some "ok", ⟨2, [7, 8], none, some 5⟩⟩ 0 rfl rfl rfl).2 5 rfl
      (by norm_num)
    exact h

/-!
## C6
-/

/-- C6: in cursor mode, after a successful `"ok"` page the stored cursor
becomes the payload's `next-cursor`, and (when that value is truthy) the
next request is built with exactly that cursor; concretely, starting from
`cursor='*'`, a first response with `next-cursor='abc'` makes the second
request carry `cursor='abc'`. -/
theorem c6_cursor_advance :
    (∀ (cfg : Config) (s : PagState) (payload : Payload),
      pyTruthy s.cursor = true → payload.status = some "ok" →
      ∃ y s', step cfg s (.http 200 payload) =
          .stepped (.cursorP (s.cursor.getD "") s.rows) 0 y s' ∧
        s'.cursor = payload.message.nextCursor ∧
        (pyTruthy payload.message.nextCursor = true →
          buildParams s' =
            .ok (.cursorP (payload.message.nextCursor.getD "")
              cfg.batch_size))) ∧
    ((runTrace ⟨20, none⟩ (initState 20 (some "*"))
        [.http 200 ⟨some "ok", ⟨10, [1, 2, 3], some "abc", none⟩⟩,
         .http 200 ⟨some "ok", ⟨10, [4, 5, 6], some "def", none⟩⟩]).map
        (fun e => match e with
          | .stepped p _ _ _ => some p
          | .crashed _ _ => none) =
      [some (.cursorP "*" 20), some (.cursorP "abc" 20)]) := by
  refine ⟨?_, by decide⟩
  intro cfg s payload hc hok
  refine ⟨_, _, step_ok_cursorMode cfg s payload hc hok, rfl, ?_⟩
  intro hnc
  simp [buildParams, hnc]

/-- Witness for the universally quantified part of `c6_cursor_advance`. -/
theorem c6_cursor_advance_witness :
    ∃ y s', step ⟨20, none⟩ (initState 20 (some "*"))
        (.http 200 ⟨some "ok", ⟨10, [1, 2, 3], some "abc", none⟩⟩) =
          .stepped (.cursorP "*" 20) 0 y s' ∧
        s'.cursor = some "abc" ∧
        (pyTruthy (some "abc") = true →
          buildParams s' = .ok (.cursorP "abc" 20)) :=
  c6_cursor_advance.1 ⟨20, none⟩ (initState 20 (some "*"))
    ⟨some "ok", ⟨10, [1, 2, 3], some "abc", none⟩⟩ rfl rfl

/-!
## C7
-/

/-- An offset-mode run: the cursor variable is falsy and `offset` has been
assigned. -/
def OffsetModeInv (s : PagState) : Prop :=
  pyTruthy s.cursor = false ∧ ∃ o, s.offset = some o

/-- A cursor-mode run: the `offset` variable was never assigned. -/
def CursorModeInv (s : PagState) : Prop := s.offset = none

theorem offsetModeInv_step (cfg : Config) (s : PagState) (out : ApiOutcome)
    (p : Params) (sl : Nat) (y : List Nat) (s' : PagState)
    (hP : OffsetModeInv s) (hstep : step cfg s out = .stepped p sl y s') :
    (∃ o, p = .offsetP o s.rows) ∧ OffsetModeInv s' ∧ s'.cursor = s.cursor := by
  obtain ⟨hc, o, hoff⟩ := hP
  have hbp := step_params_eq cfg s out p sl y s' hstep
  rw [buildParams, if_neg (by rw [hc]; exact Bool.false_ne_true), hoff] at hbp
  cases hbp
  refine ⟨⟨o, rfl⟩, ?_⟩
  rcases step_stepped_inv cfg s out _ sl y s' hstep with
    ⟨-, -, -, hs'⟩ | ⟨pl2, -, -, -, -, hs'⟩ |
    ⟨pl2, -, -, hc2, -, -, -⟩ | ⟨pl2, o2, -, -, -, hoff2, -, -, hs'⟩
  · subst hs'; exact ⟨⟨hc, o, hoff⟩, rfl⟩
  · subst hs'; exact ⟨⟨hc, o, hoff⟩, rfl⟩
  · rw [hc] at hc2; cases hc2
  · subst hs'
    exact ⟨⟨hc, o2 + (pageItems cfg s pl2).length, rfl⟩, rfl⟩

theorem cursorModeInv_step (cfg : Config) (s : PagState) (out : ApiOutcome)
    (p : Params) (sl : Nat) (y : List Nat) (s' : PagState)
    (hP : CursorModeInv s) (hstep : step cfg s out = .stepped p sl y s') :
    (∃ c, p = .cursorP c s.rows) ∧ CursorModeInv s' := by
  have hbp := step_params_eq cfg s out p sl y s' hstep
  rw [buildParams] at hbp
  by_cases hc : pyTruthy s.cursor = true
  · rw [if_pos hc] at hbp
    cases hbp
    refine ⟨⟨s.cursor.getD "", rfl⟩, ?_⟩
    rcases step_stepped_inv cfg s out _ sl y s' hstep with
      ⟨-, -, -, hs'⟩ | ⟨pl2, -, -, -, -, hs'⟩ |
      ⟨pl2, -, -, -, -, -, hs'⟩ | ⟨pl2, o2, -, -, -, hoff2, -, -, -⟩
    · subst hs'; exact hP
    · subst hs'; exact hP
    · subst hs'; exact hP
    · rw [hP] at hoff2; cases hoff2
  · rw [if_neg hc, hP] at hbp
    cases hbp

/-- C7: a falsy `cursor` argument selects offset mode starting at 0 and a
truthy one selects cursor mode (no `offset` variable); in an offset-mode run
every completed iteration's request carries an offset and the cursor
variable never becomes truthy, while in a cursor-mode run every completed
iteration's request carries a cursor and `offset` is never assigned — the
two position mechanisms never both advance in one run, and each request
carries exactly one of them. -/
theorem c7_mode_exclusive :
    (∀ (b : Nat) (c0 : Option String), pyTruthy c0 = false →
      (initState b c0).offset = some 0 ∧
      buildParams (initState b c0) = .ok (.offsetP 0 b)) ∧
    (∀ (b : Nat) (c0 : Option String), pyTruthy c0 = true →
      (initState b c0).offset = none ∧
      buildParams (initState b c0) = .ok (.cursorP (c0.getD "") b)) ∧
    (∀ (cfg : Config) (b : Nat) (c0 : Option String), pyTruthy c0 = false →
      ∀ (outs : List ApiOutcome) (p : Params) (sl : Nat) (y : List Nat)
        (s' : PagState),
      StepOut.stepped p sl y s' ∈ runTrace cfg (initState b c0) outs →
      (∃ o r, p = .offsetP o r) ∧ pyTruthy s'.cursor = false) ∧
    (∀ (cfg : Config) (b : Nat) (c0 : Option String), pyTruthy c0 = true →
      ∀ (outs : List ApiOutcome) (p : Params) (sl : Nat) (y : List Nat)
        (s' : PagState),
      StepOut.stepped p sl y s' ∈ runTrace cfg (initState b c0) outs →
      (∃ c r, p = .cursorP c r) ∧ s'.offset = none) := by
  refine ⟨?_, ?_, ?_, ?_⟩
  · intro b c0 hc
    constructor
    · simp [initState, hc]
    · simp [buildParams, initState, hc]
  · intro b c0 hc
    constructor
    · simp [initState, hc]
    · simp [buildParams, initState, hc]
  · intro cfg b c0 hc outs p sl y s' hmem
    have hinit : OffsetModeInv (initState b c0) :=
      ⟨hc, 0, by simp [initState, hc]⟩
    have hQ := runTrace_sound cfg OffsetModeInv
      (fun e => ∀ p2 sl2 y2 s2, e = .stepped p2 sl2 y2 s2 →
        (∃ o r, p2 = .offsetP o r) ∧ pyTruthy s2.cursor = false)
      (fun s out e yy _ _ p2 sl2 y2 s2 h => by cases h)
      (fun s out p2 sl2 y2 s2 hP hst => by
        obtain ⟨⟨o, hpp⟩, hP', hcur⟩ :=
          offsetModeInv_step cfg s out p2 sl2 y2 s2 hP hst
        refine ⟨?_, hP'⟩
        intro p3 sl3 y3 s3 he
        cases he
        refine ⟨⟨o, s.rows, hpp⟩, ?_⟩
        rw [hcur]
        exact hP.1)
      outs (initState b c0) hinit _ hmem
    exact hQ p sl y s' rfl
  · intro cfg b c0 hc outs p sl y s' hmem
    have hinit : CursorModeInv (initState b c0) := by
      simp [CursorModeInv, initState, hc]
    have hQ := runTrace_sound cfg CursorModeInv
      (fun e => ∀ p2 sl2 y2 s2, e = .stepped p2 sl2 y2 s2 →
        (∃ c r, p2 = .cursorP c r) ∧ s2.offset = none)
      (fun s out e yy _ _ p2 sl2 y2 s2 h => by cases h)
      (fun s out p2 sl2 y2 s2 hP hst => by
        obtain ⟨⟨c, hpp⟩, hP'⟩ :=
          cursorModeInv_step cfg s out p2 sl2 y2 s2 hP hst
        refine ⟨?_, hP'⟩
        intro p3 sl3 y3 s3 he
        cases he
        exact ⟨⟨c, s.rows, hpp⟩, hP'⟩)
      outs (initState b c0) hinit _ hmem
    exact hQ p sl y s' rfl

/-- Witness for the hypotheses of `c7_mode_exclusive`: mode selection at
`cursor=None` and `cursor='*'`, and one completed iteration of each mode. -/
theorem c7_mode_exclusive_witness :
    ((initState 20 none).offset = some 0 ∧
      buildParams (initState 20 none) = .ok (.offsetP 0 20)) ∧
    ((initState 20 (some "*")).offset = none ∧
      buildParams (initState 20 (some "*")) = .ok (.cursorP "*" 20)) ∧
    ((∃ o r, Params.offsetP 0 20 = .offsetP o r) ∧
      pyTruthy (⟨none, some 0, 1, 15, none, 0, true⟩ : PagState).cursor
        = false) ∧
    ((∃ c r, Params.cursorP "*" 20 = .cursorP c r) ∧
      (⟨some "*", none, 1, 15, none, 0, true⟩ : PagState).offset = none) :=
  ⟨c7_mode_exclusive.1 20 none rfl,
    c7_mode_exclusive.2.1 20 (some "*") rfl,
    c7_mode_exclusive.2.2.1 ⟨20, none⟩ 20 none rfl [.transport]
      (.offsetP 0 20) 2 [] ⟨none, some 0, 1, 15, none, 0, true⟩ (by decide),
    c7_mode_exclusive.2.2.2 ⟨20, none⟩ 20 (some "*") rfl [.transport]
      (.cursorP "*" 20) 2 [] ⟨some "*", none, 1, 15, none, 0, true⟩
      (by decide)⟩

/-!
## C9
-/

/-- C9: in cursor mode, a successful `"ok"` page carrying a falsy
`next-cursor` (JSON `null` or `''`) together with a nonempty taken item list
leaves the loop live; on the very next iteration the request builder takes
the offset branch with the never-assigned `offset` variable, so the
generator raises an uncaught `NameError` instead of continuing in cursor
mode or terminating cleanly. -/
theorem c9_falsy_next_cursor :
    (∀ (cfg : Config) (s : PagState) (payload : Payload),
      pyTruthy s.cursor = true → s.offset = none →
      payload.status = some "ok" →
      pyTruthy payload.message.nextCursor = false →
      ∃ y s', step cfg s (.http 200 payload) =
          .stepped (.cursorP (s.cursor.getD "") s.rows) 0 y s' ∧
        (y ≠ [] → s'.incomplete = true ∧
          ∀ out2 : ApiOutcome, step cfg s' out2 = .crashed .nameError [])) ∧
    (runTrace ⟨20, none⟩ (initState 20 (some "*"))
        [.http 200 ⟨some "ok", ⟨10, [1, 2, 3], some "", none⟩⟩, .transport] =
      [.stepped (.cursorP "*" 20) 0 [1, 2, 3]
         ⟨some "", none, 0, 20, some 10, 3, true⟩,
       .crashed .nameError []]) := by
  refine ⟨?_, by decide⟩
  intro cfg s payload hc hoff hok hnc
  refine ⟨_, _, step_ok_cursorMode cfg s payload hc hok, ?_⟩
  intro hy
  have hpe : (pageItems cfg s payload).isEmpty = false := by
    cases hpe2 : (pageItems cfg s payload).isEmpty
    · rfl
    · exact absurd (List.isEmpty_iff.mp hpe2) hy
  constructor
  · simp [hpe]
  · intro out2
    exact step_nameError cfg _ out2 hnc hoff

/-- Witness for the universally quantified part of `c9_falsy_next_cursor`. -/
theorem c9_falsy_next_cursor_witness :
    ∃ y s', step ⟨20, none⟩ (initState 20 (some "*"))
        (.http 200 ⟨some "ok", ⟨10, [1, 2, 3], some "", none⟩⟩) =
          .stepped (.cursorP "*" 20) 0 y s' ∧
        (y ≠ [] → s'.incomplete = true ∧
          ∀ out2 : ApiOutcome, step ⟨20, none⟩ s' out2 =
            .crashed .nameError []) :=
  c9_falsy_next_cursor.1 ⟨20, none⟩ (initState 20 (some "*"))
    ⟨some "ok", ⟨10, [1, 2, 3], some "", none⟩⟩ rfl rfl rfl rfl

end Crossref
